import Mathlib

/-!
Shallow embedding of the ITR (Implied Temperature Rise) scoring core, checked
against its natural-language specification.

Sources embedded (os-c/ITR):
  * ITR/configs.py              (TemperatureScoreControls, tcre_multiplier)
  * ITR/interfaces.py           (IEmissionRealization, IEIRealization,
                                 ICompanyEIProjection and their add methods;
                                 ICompanyData.__init__ base-year derivation;
                                 _get_base_realization_from_historic)
  * ITR/data/data_warehouse.py  (DataWarehouse.__init__ scope consolidation,
                                 _get_cumulative_emissions,
                                 fix_ragged_projected_targets)
  * ITR/data/vault_providers.py (DataVaultWarehouse.quant_init SQL,
                                 get_pa_temp_scores, compute_portfolio_weights,
                                 benchmark region fallback lookups)
  * ITR/data/excel.py           (_company_df_to_model batch loop)

Numeric model: Python floats (and SQL doubles) are modelled by `PFloat`, a
rational-valued IEEE-style domain with explicit nan and signed infinities.
Rounding is idealized away (magnitudes are exact rationals); nan/inf
propagation through `+`, `*`, `/` follows IEEE-754 rules, which is what
numpy/pint/pandas arithmetic does on magnitudes.
-/

/-- IEEE-style scalar: a rational magnitude, or nan, or a signed infinity.
Models the magnitude of a Python float / pint Quantity. -/
inductive PFloat where
  | nan : PFloat
  | inf : PFloat
  | ninf : PFloat
  | val : ℚ → PFloat
  deriving DecidableEq, Repr

namespace PFloat

/-- IEEE addition on magnitudes: nan propagates, inf + (-inf) = nan. -/
def add : PFloat → PFloat → PFloat
  | nan, _ => nan
  | _, nan => nan
  | inf, ninf => nan
  | ninf, inf => nan
  | inf, _ => inf
  | _, inf => inf
  | ninf, _ => ninf
  | _, ninf => ninf
  | val a, val b => val (a + b)

/-- IEEE multiplication on magnitudes: nan propagates, inf * 0 = nan. -/
def mul : PFloat → PFloat → PFloat
  | nan, _ => nan
  | _, nan => nan
  | inf, inf => inf
  | inf, ninf => ninf
  | ninf, inf => ninf
  | ninf, ninf => inf
  | inf, val b => if 0 < b then inf else if b < 0 then ninf else nan
  | val a, inf => if 0 < a then inf else if a < 0 then ninf else nan
  | ninf, val b => if 0 < b then ninf else if b < 0 then inf else nan
  | val a, ninf => if 0 < a then ninf else if a < 0 then inf else nan
  | val a, val b => val (a * b)

/-- IEEE division on magnitudes: nan propagates, x/0 is a signed infinity for
x ≠ 0 and nan for 0/0 (pandas/numpy emit no error for float division by 0). -/
def div : PFloat → PFloat → PFloat
  | nan, _ => nan
  | _, nan => nan
  | inf, inf => nan
  | inf, ninf => nan
  | ninf, inf => nan
  | ninf, ninf => nan
  | inf, val b => if b < 0 then ninf else inf
  | ninf, val b => if b < 0 then inf else ninf
  | val _, inf => val 0
  | val _, ninf => val 0
  | val a, val b =>
      if b = 0 then (if 0 < a then inf else if a < 0 then ninf else nan)
      else val (a / b)

/-- numpy.isnan on the magnitude (infinities are not nan). -/
def isNan : PFloat → Bool
  | nan => true
  | _ => false

/-- Python truthiness of a float magnitude: only 0.0 is falsy
(nan and the infinities are truthy). -/
def truthy : PFloat → Bool
  | val a => a ≠ 0
  | _ => true

end PFloat

/-! ## Cumulative emissions (ITR/data/data_warehouse.py, _get_cumulative_emissions)

The live code is
    projected_emissions = projected_ei.multiply(projected_production)
    return projected_emissions.sum(axis=1).astype('pint[Mt CO2]')
For a single company row this is the elementwise product of the intensity row
and the production row, followed by a row sum.  The cells are pint Quantities;
pandas reduces the row as an object array whose NA mask does not recognize a
Quantity with nan magnitude, so every term enters the sum and nan propagates
through the additions (it is not skipped and not coerced to 0). -/

/-- Elementwise product of one company's intensity row and production row
(`projected_ei.multiply(projected_production)` restricted to one row). -/
def rowProducts (ei prod : List PFloat) : List PFloat :=
  List.zipWith PFloat.mul ei prod

/-- Row sum as pandas performs it on an object array of pint Quantities:
plain left-to-right addition starting from 0, with nan propagating. -/
def objectRowSum (terms : List PFloat) : PFloat :=
  terms.foldl PFloat.add (PFloat.val 0)

/-- A cumulative-emissions result: magnitude plus the unit tag imposed by
`.astype('pint[Mt CO2]')`. -/
structure EmissionsTotal where
  m : PFloat
  u : String
  deriving DecidableEq, Repr

/-- Model of `DataWarehouse._get_cumulative_emissions`, one company row: the weighted
sum of projected emission intensity times projected production, returned in
Mt CO2. -/
def get_cumulative_emissions (ei prod : List PFloat) : EmissionsTotal :=
  { m := objectRowSum (rowProducts ei prod), u := "Mt CO2" }

/-! ## Realizations and pointwise add (ITR/interfaces.py)

`IEmissionRealization.add`, `IEIRealization.add` and `ICompanyEIProjection.add`
all assert `self.year == o.year` and then build a new object with the two
values summed.  A failed assert (mismatched years) raises, which we model as
`none`.  Note that the source's `ICompanyEIProjection.add` constructs an
`IEIRealization` — the same (year, value) shape. -/

/-- Model of `IEmissionRealization`: one year of historic absolute emissions. -/
structure IEmissionRealization where
  year : Int
  value : PFloat
  deriving DecidableEq, Repr

/-- Model of `IEIRealization`: one year of historic emissions intensity. -/
structure IEIRealization where
  year : Int
  value : PFloat
  deriving DecidableEq, Repr

/-- Model of `ICompanyEIProjection`: one projected year of emissions intensity. -/
structure ICompanyEIProjection where
  year : Int
  value : PFloat
  deriving DecidableEq, Repr

/-- Model of `IEmissionRealization.add`: asserts equal years, sums values. -/
def IEmissionRealization.add (a o : IEmissionRealization) : Option IEmissionRealization :=
  if a.year = o.year then some ⟨a.year, a.value.add o.value⟩ else none

/-- Model of `IEIRealization.add`: asserts equal years, sums values. -/
def IEIRealization.add (a o : IEIRealization) : Option IEIRealization :=
  if a.year = o.year then some ⟨a.year, a.value.add o.value⟩ else none

/-- Model of `ICompanyEIProjection.add`: asserts equal years, sums values (the source
returns the result as an `IEIRealization`-shaped object). -/
def ICompanyEIProjection.add (a o : ICompanyEIProjection) : Option ICompanyEIProjection :=
  if a.year = o.year then some ⟨a.year, a.value.add o.value⟩ else none

/-- Python's two-argument `list(map(add, xs, ys))` as used in
`DataWarehouse.__init__`: the iteration stops at the SHORTER list (silent
truncation); a raised assert inside `add` aborts the whole call (`none`). -/
def mapAdd {α : Type} (add : α → α → Option α) : List α → List α → Option (List α)
  | [], _ => some []
  | _ :: _, [] => some []
  | a :: as, b :: bs =>
      match add a b with
      | none => none
      | some r => (mapAdd add as bs).map (fun rs => r :: rs)

/-- Pairwise year agreement between the entries of two realization lists
(same length and equal years position by position). -/
def yearsMatch {α : Type} (yearOf : α → Int) (xs ys : List α) : Prop :=
  List.Forall₂ (fun a b => yearOf a = yearOf b) xs ys

/-! ## Company data model (ITR/interfaces.py) -/

/-- A pint Quantity: magnitude and unit.  Arithmetic in the embedded code only
ever adds quantities already expressed in the same unit (both ghg fields are
normalized to the company's emissions_metric). -/
structure Quantity where
  m : PFloat
  u : String
  deriving DecidableEq, Repr

/-- pint addition of same-unit quantities (the unit of the left operand is
kept, as pint does). -/
def Quantity.add (a b : Quantity) : Quantity :=
  { m := a.m.add b.m, u := a.u }

/-- Model of `IProductionRealization`: one year of historic production. -/
structure IProductionRealization where
  year : Int
  value : PFloat
  deriving DecidableEq, Repr

/-- Model of `ICompanyEIProjections`: an intensity metric plus projected values. -/
structure ICompanyEIProjections where
  ei_metric : String
  projections : List ICompanyEIProjection
  deriving DecidableEq, Repr

/-- Model of `ICompanyEIProjectionsScopes`: per-scope optional projection series. -/
structure ICompanyEIProjectionsScopes where
  S1 : Option ICompanyEIProjections
  S2 : Option ICompanyEIProjections
  S1S2 : Option ICompanyEIProjections
  S3 : Option ICompanyEIProjections
  S1S2S3 : Option ICompanyEIProjections
  deriving DecidableEq, Repr

/-- Model of `IHistoricEmissionsScopes`: per-scope lists of emission realizations. -/
structure IHistoricEmissionsScopes where
  S1 : List IEmissionRealization
  S2 : List IEmissionRealization
  S1S2 : List IEmissionRealization
  S3 : List IEmissionRealization
  S1S2S3 : List IEmissionRealization
  deriving DecidableEq, Repr

/-- Model of `IHistoricEIScopes`: per-scope lists of intensity realizations. -/
structure IHistoricEIScopes where
  S1 : List IEIRealization
  S2 : List IEIRealization
  S1S2 : List IEIRealization
  S3 : List IEIRealization
  S1S2S3 : List IEIRealization
  deriving DecidableEq, Repr

/-- Model of `IHistoricData`.  Here `productions` is `Optional[List[...]]` in the source;
`None` and `[]` are indistinguishable under every (truthiness) use in the
embedded code, so both are modelled by `[]`. -/
structure IHistoricData where
  productions : List IProductionRealization
  emissions : Option IHistoricEmissionsScopes
  emissions_intensities : Option IHistoricEIScopes
  deriving DecidableEq, Repr

/-- Model of `ICompanyData` as the DataWarehouse sees it after construction:
`ghg_s1s2` is always set (construction raises otherwise) and the projected
scope maps have been filled by the projection engine. -/
structure ICompanyData where
  company_id : String
  ghg_s1s2 : Quantity
  ghg_s3 : Option Quantity
  historic_data : Option IHistoricData
  projected_intensities : ICompanyEIProjectionsScopes
  projected_targets : ICompanyEIProjectionsScopes
  deriving DecidableEq, Repr

/-! ## Scope consolidation (ITR/data/data_warehouse.py, DataWarehouse.__init__)

After `self.company_data._calculate_target_projections(...)` has run, the
constructor shifts S3 data into S1S2 company by company.  A raised assert
inside one of the `add` calls (year mismatch) is modelled as `none`; so is the
attribute error that would occur if `projected_*.S1S2` were absent while
`projected_*.S3` is present. -/

/-- The per-company body of the consolidation loop (lines 48-66). -/
def consolidate_company (c : ICompanyData) : Option ICompanyData := do
  -- if c.ghg_s3 and not ITR.isnan(c.ghg_s3.m): merge ghg numbers
  let c1 : ICompanyData :=
    match c.ghg_s3 with
    | some g =>
        if g.m.truthy && !g.m.isNan then
          { c with ghg_s1s2 := c.ghg_s1s2.add g,
                   ghg_s3 := some { m := PFloat.val 0, u := g.u } }
        else c
    | none => c
  -- if c.historic_data: merge historic emissions, then historic intensities
  let c2 : Option ICompanyData :=
    match c1.historic_data with
    | none => some c1
    | some h =>
        match h.emissions with
        | some e =>
            if e.S3 = [] then some c1
            else do
              let merged ← mapAdd IEmissionRealization.add e.S1S2 e.S3
              let e2 : IHistoricEmissionsScopes := { e with S1S2 := merged, S3 := [] }
              some { c1 with historic_data := some { h with emissions := some e2 } }
        | none => some c1
  let c2 ← c2
  let c3 : Option ICompanyData :=
    match c2.historic_data with
    | none => some c2
    | some h =>
        match h.emissions_intensities with
        | some e =>
            if e.S3 = [] then some c2
            else do
              let merged ← mapAdd IEIRealization.add e.S1S2 e.S3
              let e2 : IHistoricEIScopes := { e with S1S2 := merged, S3 := [] }
              some { c2 with historic_data := some { h with emissions_intensities := some e2 } }
        | none => some c2
  let c3 ← c3
  -- if c.projected_intensities.S3: merge into S1S2, then None it out
  let c4 : Option ICompanyData :=
    match c3.projected_intensities.S3 with
    | none => some c3
    | some p3 => do
        let s1s2 ← c3.projected_intensities.S1S2
        let merged ← mapAdd ICompanyEIProjection.add s1s2.projections p3.projections
        let scopes : ICompanyEIProjectionsScopes :=
          { c3.projected_intensities with S1S2 := some { s1s2 with projections := merged }, S3 := none }
        some { c3 with projected_intensities := scopes }
  let c4 ← c4
  -- if c.projected_targets.S3: merge into S1S2, then None it out
  match c4.projected_targets.S3 with
  | none => some c4
  | some p3 => do
      let s1s2 ← c4.projected_targets.S1S2
      let merged ← mapAdd ICompanyEIProjection.add s1s2.projections p3.projections
      let scopes : ICompanyEIProjectionsScopes :=
        { c4.projected_targets with S1S2 := some { s1s2 with projections := merged }, S3 := none }
      some { c4 with projected_targets := scopes }

/-- Model of `DataWarehouse.__init__` restricted to one company: target projections are
computed FIRST (`_calculate_target_projections`), and only then is Scope 3
consolidated into Scope 1+2. -/
def DataWarehouse.init_consolidate
    (calculate_target_projections : ICompanyData → ICompanyData)
    (c : ICompanyData) : Option ICompanyData :=
  consolidate_company (calculate_target_projections c)

/-! ## Base-year derivation (ITR/interfaces.py, ICompanyData.__init__ and
_get_base_realization_from_historic)

Realization lists are passed as (year, magnitude) pairs.  Python's stable
descending sort followed by `[0]` picks the FIRST entry holding the maximal
year, which `maxByYearFirst` reproduces with a fold. -/

/-- First element with the maximal year among `rv :: rvs`. -/
def maxByYearFirst (rv : Int × PFloat) (rvs : List (Int × PFloat)) : Int × PFloat :=
  rvs.foldl (fun acc x => if acc.1 < x.1 then x else acc) rv

/-- The object returned by `_get_base_realization_from_historic`: its year may
have been nulled out or overwritten. -/
structure BaseRealization where
  year : Option Int
  value : PFloat
  deriving DecidableEq, Repr

/-- Model of `ICompanyData._get_base_realization_from_historic`.  With no valid (non-nan)
entry the first entry is copied with its year nulled; otherwise the most recent
valid entry wins unless a base_year was already fixed and disagrees, in which
case a nan value tagged with that base year is returned.  (Python would raise
IndexError on an empty list; every call site guards non-emptiness.) -/
def get_base_realization_from_historic
    (realized_values : List (Int × PFloat)) (base_year : Option Int) : BaseRealization :=
  let valid := realized_values.filter (fun rv => !rv.2.isNan)
  match valid with
  | [] =>
      match realized_values with
      | [] => { year := none, value := PFloat.nan }
      | rv0 :: _ => { year := none, value := rv0.2 }
  | v0 :: vs =>
      let best := maxByYearFirst v0 vs
      match base_year with
      | some b =>
          if best.1 ≠ b then { year := some b, value := PFloat.nan }
          else { year := some best.1, value := best.2 }
      | none => { year := some best.1, value := best.2 }

/-- Year/magnitude pairs of an emission realization list. -/
def emPairs (l : List IEmissionRealization) : List (Int × PFloat) :=
  l.map (fun r => (r.year, r.value))

/-- Year/magnitude pairs of an intensity realization list. -/
def eiPairs (l : List IEIRealization) : List (Int × PFloat) :=
  l.map (fun r => (r.year, r.value))

/-- Year/magnitude pairs of a production realization list. -/
def prodPairs (l : List IProductionRealization) : List (Int × PFloat) :=
  l.map (fun r => (r.year, r.value))

/-- Outcome of the ghg_s1s2 part of `ICompanyData.__init__`. -/
structure GhgDerivation where
  base_year_production : PFloat
  base_year : Option Int
  ghg_s1s2 : PFloat
  deriving DecidableEq, Repr

/-- The `base_year = None` initialization and the `base_year_production`
if/elif/else of `ICompanyData.__init__` (interfaces.py lines 867-877):
the supplied argument wins; otherwise non-empty historic productions fix both
the production and the base year; otherwise the production is NaN. -/
def derive_base_year_production (base_year_production_arg : Option PFloat)
    (historic_data : Option IHistoricData) : PFloat × Option Int :=
  match base_year_production_arg with
  | some v => (v, none)
  | none =>
      match historic_data with
      | some h =>
          if h.productions = [] then (PFloat.nan, none)
          else
            let r := get_base_realization_from_historic (prodPairs h.productions) none
            (r.value, r.year)
      | none => (PFloat.nan, none)

/-- The `base_year_production` / `ghg_s1s2` derivation of
`ICompanyData.__init__` (interfaces.py lines 867-904), with `Except.error`
standing for the raised ValueError. -/
def derive_ghg_s1s2 (base_year_production_arg ghg_s1s2_arg : Option PFloat)
    (historic_data : Option IHistoricData) : Except String GhgDerivation :=
  let step1 : PFloat × Option Int :=
    derive_base_year_production base_year_production_arg historic_data
  let byp := step1.1
  let by0 := step1.2
  -- ghg_s1s2 from historic absolute emissions (S1S2 preferred, else S1 + S2)
  let step2 : Option PFloat × Option Int :=
    match ghg_s1s2_arg with
    | some v => (some v, by0)
    | none =>
        match historic_data with
        | some h =>
            match h.emissions with
            | some e =>
                if e.S1S2 ≠ [] then
                  let r := get_base_realization_from_historic (emPairs e.S1S2) by0
                  (some r.value, by0 <|> r.year)
                else if e.S1 ≠ [] ∧ e.S2 ≠ [] then
                  let r1 := get_base_realization_from_historic (emPairs e.S1) by0
                  let r2 := get_base_realization_from_historic (emPairs e.S2) by0
                  (some (r1.value.add r2.value), by0 <|> r1.year)
                else (none, by0)
            | none => (none, by0)
        | none => (none, by0)
  let ghg0 := step2.1
  let by1 := step2.2
  -- fallback to historic emission intensities times base-year production
  let step3 : Except String (PFloat × Option Int) :=
    match ghg0 with
    | some g => .ok (g, by1)
    | none =>
        match historic_data with
        | some h =>
            match h.emissions_intensities with
            | some ei =>
                if ei.S1S2 ≠ [] then
                  let r := get_base_realization_from_historic (eiPairs ei.S1S2) by1
                  .ok (r.value.mul byp, by1 <|> r.year)
                else if ei.S1 ≠ [] ∧ ei.S2 ≠ [] then
                  let r1 := get_base_realization_from_historic (eiPairs ei.S1) by1
                  let r2 := get_base_realization_from_historic (eiPairs ei.S2) by1
                  .ok ((r1.value.add r2.value).mul byp, by1 <|> r1.year)
                else .error "missing S1S2 historic intensity data"
            | none => .error "missing historic emissions or intensity data to calculate ghg_s1s2"
        | none => .error "missing historic emissions or intensity data to calculate ghg_s1s2"
  match step3 with
  | .error msg => .error msg
  | .ok gby => .ok { base_year_production := byp, base_year := gby.2, ghg_s1s2 := gby.1 }

/-! ## Batch conversion loop (ITR/data/excel.py, _company_df_to_model)

Each row ends in one of three ways: a parsed company, a pydantic
ValidationError (caught: the company is skipped with a warning), or a plain
ValueError raised by `ICompanyData.__init__` (NOT caught by
`except ValidationError`, so it aborts the whole batch). -/

/-- Outcome of `ICompanyData.parse_obj` on one row. -/
inductive CompanyParseOutcome where
  | parsed : ICompanyData → CompanyParseOutcome
  | validation_error : CompanyParseOutcome
  | value_error : String → CompanyParseOutcome
  deriving DecidableEq, Repr

/-- The `for company_data in companies_data_dict: try ... except ValidationError`
loop of `_company_df_to_model`. -/
def company_df_to_model : List CompanyParseOutcome → Except String (List ICompanyData)
  | [] => .ok []
  | .parsed c :: rest => (company_df_to_model rest).map (fun l => c :: l)
  | .validation_error :: rest => company_df_to_model rest
  | .value_error msg :: _ => .error msg

/-! ## Ragged left edge of projected targets
(ITR/data/data_warehouse.py, fix_ragged_projected_targets) -/

/-- Python dict comprehension over (year, value) entries followed by lookup:
the LAST binding of a year wins. -/
def dict_lookup (year : Int) (entries : List (Int × PFloat)) : Option PFloat :=
  entries.foldl (fun acc p => if p.1 = year then some p.2 else acc) none

/-- Model of `fix_ragged_projected_targets` applied to one company: `x_val` is the
value of the first projected-target column, `year` its label, and
`historic_ei_s1s2` the company's historic S1S2 emission-intensity entries. -/
def fix_ragged_projected_targets (year : Int) (x_val : PFloat)
    (historic_ei_s1s2 : List (Int × PFloat)) : PFloat :=
  if x_val.isNan then
    match dict_lookup year historic_ei_s1s2 with
    | none => x_val
    | some v => v
  else x_val

/-- The surrounding assignment in `get_preprocessed_company_data`: only the
first column of a company's projected-targets row is rewritten. -/
def fix_first_projected_target_column (year : Int) (row : List PFloat)
    (historic_ei_s1s2 : List (Int × PFloat)) : List PFloat :=
  match row with
  | [] => []
  | v :: rest => fix_ragged_projected_targets year v historic_ei_s1s2 :: rest

/-! ## Portfolio weights (ITR/data/vault_providers.py,
VaultCompanyDataProvider.compute_portfolio_weights) -/

/-- pandas label alignment: a label with no matching entry yields NaN. -/
def series_lookup (key : String) (entries : List (String × PFloat)) : PFloat :=
  match entries.find? (fun p => p.1 == key) with
  | some p => p.2
  | none => PFloat.nan

/-- Model of `pd.Series.sum()` with its default skipna=True: nan entries are dropped;
an empty or all-nan series sums to 0. -/
def pandas_sum_skipna (xs : List PFloat) : PFloat :=
  xs.foldl (fun acc x => if x.isNan then acc else acc.add x) (PFloat.val 0)

/-- Model of `compute_portfolio_weights`: weights are restricted to the ids appearing in
`pa_temp_scores`, summed, and each score is multiplied by its weight and
divided by the total — with NO guard against a zero total. -/
def compute_portfolio_weights (pa_temp_scores : List (String × PFloat))
    (factor_weights : List (String × PFloat)) : List (String × PFloat) :=
  let weights := factor_weights.filter (fun w => pa_temp_scores.any (fun s => s.1 == w.1))
  let weight_sum := pandas_sum_skipna (weights.map (fun w => w.2))
  pa_temp_scores.map (fun s => (s.1, (s.2.mul (series_lookup s.1 weights)).div weight_sum))

/-! ## Blended temperature scores (ITR/data/vault_providers.py,
DataVaultWarehouse.get_pa_temp_scores) -/

/-- One row of the temperature_scores table. -/
structure TempScoreRow where
  target_temperature_score : PFloat
  trajectory_temperature_score : PFloat
  deriving DecidableEq, Repr

/-- Model of `get_pa_temp_scores`: rejects probabilities outside [0, 1] with a
ValueError; companies found in the table get the blend
target*p + trajectory*(1-p), companies not found get NaN. -/
def get_pa_temp_scores (probability : ℚ)
    (temperature_scores : List (String × TempScoreRow))
    (company_ids : List String) : Except String (List (String × PFloat)) :=
  if probability < 0 ∨ probability > 1 then
    .error "probability value outside range"
  else
    .ok (company_ids.map (fun cid =>
      match temperature_scores.find? (fun p => p.1 == cid) with
      | some p =>
          (cid, (p.2.target_temperature_score.mul (PFloat.val probability)).add
                  (p.2.trajectory_temperature_score.mul (PFloat.val (1 - probability))))
      | none => (cid, PFloat.nan)))

/-! ## Benchmark lookup with Global fallback (ITR/data/vault_providers.py,
VaultProviderProductionBenchmark.get_benchmark_projections and
VaultProviderIntensityBenchmark._get_intensity_benchmarks; the two bodies are
identical). -/

/-- One `IBenchmark`: a (region, sector) row of yearly values. -/
structure IBenchmark where
  region : String
  sector : String
  projections : List (Int × ℚ)
  deriving DecidableEq, Repr

/-- The region index column of the benchmark table. -/
def benchmark_regions (bench : List IBenchmark) : List String :=
  bench.map (fun b => b.region)

/-- Row lookup `.loc[(region, sector)]` on the benchmark table. -/
def benchmark_find (bench : List IBenchmark) (region sector : String) : Option IBenchmark :=
  bench.find? (fun b => b.region == region && b.sector == sector)

/-- The year columns `range(base_year, target_end_year + 1)`. -/
def year_span (base_year target_end_year : Int) : List Int :=
  (List.range (target_end_year + 1 - base_year).toNat).map (fun (i : ℕ) => base_year + (i : Int))

/-- Column selection for one year. -/
def benchmark_year_lookup (proj : List (Int × ℚ)) (y : Int) : Option ℚ :=
  (proj.find? (fun p => p.1 == y)).map (fun p => p.2)

/-- A benchmark row restricted to the scoring year columns. -/
def benchmark_series (b : IBenchmark) (base_year target_end_year : Int) : List (Option ℚ) :=
  (year_span base_year target_end_year).map (benchmark_year_lookup b.projections)

/-- Model of `VaultProviderProductionBenchmark.get_benchmark_projections`: per company,
regions absent from the benchmark are replaced by "Global" before the
(region, sector) row lookup over the scoring years. -/
def get_benchmark_projections (bench : List IBenchmark) (base_year target_end_year : Int)
    (companies : List (String × String)) : List (Option (List (Option ℚ))) :=
  companies.map (fun c =>
    let region := if (benchmark_regions bench).contains c.1 then c.1 else "Global"
    (benchmark_find bench region c.2).map (fun b => benchmark_series b base_year target_end_year))

/-- Model of `VaultProviderIntensityBenchmark._get_intensity_benchmarks`: the same
company-by-company Global-fallback lookup, on the intensity table. -/
def get_intensity_benchmarks (bench : List IBenchmark) (base_year target_end_year : Int)
    (companies : List (String × String)) : List (Option (List (Option ℚ))) :=
  companies.map (fun c =>
    let region := if (benchmark_regions bench).contains c.1 then c.1 else "Global"
    (benchmark_find bench region c.2).map (fun b => benchmark_series b base_year target_end_year))

/-! ## Temperature scoring SQL (ITR/data/vault_providers.py,
DataVaultWarehouse.quant_init) and tcre_multiplier (ITR/configs.py) -/

/-- One row of the overshoot_ratios table created by quant_init. -/
structure OvershootRow where
  benchmark_temp : ℚ
  global_budget : ℚ
  trajectory_overshoot : ℚ
  target_overshoot : ℚ
  deriving DecidableEq, Repr

/-- The first quant_init CREATE TABLE: overshoot ratios are the cumulative
trajectory (resp. target) divided by the cumulative budget. -/
def overshoot_ratios_row (cumulative_trajectory cumulative_target cumulative_budget
    global_budget benchmark_temp : ℚ) : OvershootRow :=
  { benchmark_temp := benchmark_temp
    global_budget := global_budget
    trajectory_overshoot := cumulative_trajectory / cumulative_budget
    target_overshoot := cumulative_target / cumulative_budget }

/-- One row of the temperature_scores table created by quant_init. -/
structure TemperatureScoresRow where
  trajectory_temperature_score : ℚ
  trajectory_temperature_score_units : String
  target_temperature_score : ℚ
  target_temperature_score_units : String
  deriving DecidableEq, Repr

/-- The second quant_init CREATE TABLE:
`R.benchmark_temp + R.global_budget * (overshoot - 1) * 2.2/3664.0`,
tagged delta_degC. -/
def temperature_scores_row (R : OvershootRow) : TemperatureScoresRow :=
  { trajectory_temperature_score :=
      R.benchmark_temp + R.global_budget * (R.trajectory_overshoot - 1) * (22/10) / 3664
    trajectory_temperature_score_units := "delta_degC"
    target_temperature_score :=
      R.benchmark_temp + R.global_budget * (R.target_overshoot - 1) * (22/10) / 3664
    target_temperature_score_units := "delta_degC" }

/-- pint division of two quantities: magnitudes divide, units compound. -/
def Quantity.divide (a b : Quantity) : Quantity :=
  { m := a.m.div b.m, u := a.u ++ " / (" ++ b.u ++ ")" }

/-- Default `TemperatureScoreConfig.CONTROLS_CONFIG.tcre`: 2.2 delta_degC. -/
def TemperatureScoreControls.tcre : Quantity :=
  { m := PFloat.val (22/10), u := "delta_degC" }

/-- Default `TemperatureScoreConfig.CONTROLS_CONFIG.carbon_conversion`:
3664.0 Gt CO2. -/
def TemperatureScoreControls.carbon_conversion : Quantity :=
  { m := PFloat.val 3664, u := "Gt CO2" }

/-- Model of `TemperatureScoreControls.tcre_multiplier`: tcre / carbon_conversion. -/
def TemperatureScoreControls.tcre_multiplier : Quantity :=
  TemperatureScoreControls.tcre.divide TemperatureScoreControls.carbon_conversion

/-- Company used as the concrete input of the scope-consolidation witness. -/
def c3wCompany : ICompanyData :=
  { company_id := "X",
    ghg_s1s2 := { m := PFloat.val 10, u := "t CO2" },
    ghg_s3 := some { m := PFloat.val 5, u := "t CO2" },
    historic_data := some
      { productions := [],
        emissions := some
          { S1 := [], S2 := [], S1S2 := [⟨2019, PFloat.val 1⟩],
            S3 := [⟨2019, PFloat.val 2⟩], S1S2S3 := [] },
        emissions_intensities := some
          { S1 := [], S2 := [], S1S2 := [⟨2019, PFloat.val 3⟩],
            S3 := [⟨2019, PFloat.val 4⟩], S1S2S3 := [] } },
    projected_intensities :=
      { S1 := none, S2 := none,
        S1S2 := some { ei_metric := "t CO2/GJ", projections := [⟨2019, PFloat.val 6⟩] },
        S3 := some { ei_metric := "t CO2/GJ", projections := [⟨2019, PFloat.val 7⟩] },
        S1S2S3 := none },
    projected_targets :=
      { S1 := none, S2 := none,
        S1S2 := some { ei_metric := "t CO2/GJ", projections := [⟨2019, PFloat.val 8⟩] },
        S3 := some { ei_metric := "t CO2/GJ", projections := [⟨2019, PFloat.val 9⟩] },
        S1S2S3 := none } }

/-! ## Helper lemmas -/

theorem PFloat.add_comm_pf : ∀ x y : PFloat, x.add y = y.add x := by
  intro x y
  cases x <;> cases y <;> simp [PFloat.add] <;> ring

theorem PFloat.add_assoc_pf : ∀ x y z : PFloat, (x.add y).add z = x.add (y.add z) := by
  intro x y z
  cases x <;> cases y <;> cases z <;> simp [PFloat.add] <;> ring

theorem PFloat.add_nan_left : ∀ x : PFloat, nan.add x = nan := by
  intro x; cases x <;> rfl

theorem PFloat.add_nan_right : ∀ x : PFloat, x.add nan = nan := by
  intro x; cases x <;> rfl

theorem PFloat.mul_nan_left : ∀ x : PFloat, nan.mul x = nan := by
  intro x; cases x <;> rfl

theorem PFloat.mul_nan_right : ∀ x : PFloat, x.mul nan = nan := by
  intro x; cases x <;> rfl

theorem PFloat.add_val (a b : ℚ) : (val a).add (val b) = val (a + b) := rfl

theorem PFloat.mul_val (a b : ℚ) : (val a).mul (val b) = val (a * b) := rfl

theorem PFloat.isNan_iff (x : PFloat) : x.isNan = true ↔ x = nan := by
  cases x <;> simp [PFloat.isNan]

theorem PFloat.add_isNan_left {x y : PFloat} (h : x.isNan) : (x.add y).isNan := by
  rw [PFloat.isNan_iff] at h
  subst h
  rw [PFloat.add_nan_left]
  rfl

theorem PFloat.add_isNan_right {x y : PFloat} (h : y.isNan) : (x.add y).isNan := by
  rw [PFloat.isNan_iff] at h
  subst h
  rw [PFloat.add_nan_right]
  rfl

theorem PFloat.mul_isNan_left {x y : PFloat} (h : x.isNan) : (x.mul y).isNan := by
  rw [PFloat.isNan_iff] at h
  subst h
  rw [PFloat.mul_nan_left]
  rfl

theorem PFloat.mul_isNan_right {x y : PFloat} (h : y.isNan) : (x.mul y).isNan := by
  rw [PFloat.isNan_iff] at h
  subst h
  rw [PFloat.mul_nan_right]
  rfl

theorem objectRowSum_nan_of_mem_nan :
    ∀ terms : List PFloat, (∃ t ∈ terms, t.isNan) → (objectRowSum terms).isNan := by
  have key : ∀ (terms : List PFloat) (acc : PFloat),
      (acc.isNan ∨ ∃ t ∈ terms, t.isNan) → (terms.foldl PFloat.add acc).isNan := by
    intro terms
    induction terms with
    | nil =>
        intro acc h
        rcases h with h | ⟨t, ht, _⟩
        · simpa using h
        · simp at ht
    | cons x xs ih =>
        intro acc h
        rcases h with h | ⟨t, ht, hnan⟩
        · exact ih _ (Or.inl (PFloat.add_isNan_left h))
        · rcases List.mem_cons.mp ht with rfl | hmem
          · exact ih _ (Or.inl (PFloat.add_isNan_right hnan))
          · exact ih _ (Or.inr ⟨t, hmem, hnan⟩)
  intro terms h
  exact key terms (PFloat.val 0) (Or.inr h)

theorem objectRowSum_all_val (terms : List ℚ) :
    objectRowSum (terms.map PFloat.val) = PFloat.val (terms.foldl (· + ·) 0) := by
  have key : ∀ (l : List ℚ) (a : ℚ),
      (l.map PFloat.val).foldl PFloat.add (PFloat.val a) = PFloat.val (l.foldl (· + ·) a) := by
    intro l
    induction l with
    | nil => intro a; rfl
    | cons x xs ih => intro a; simpa [PFloat.add] using ih (a + x)
  exact key terms 0

theorem rowProducts_nan {ei prod : List PFloat} {i : ℕ}
    (h1 : i < ei.length) (h2 : i < prod.length)
    (h : (ei.get ⟨i, h1⟩).isNan ∨ (prod.get ⟨i, h2⟩).isNan) :
    ((rowProducts ei prod).get ⟨i, by simp [rowProducts]; omega⟩).isNan := by
  have hg : (rowProducts ei prod).get ⟨i, by simp [rowProducts]; omega⟩
      = (ei.get ⟨i, h1⟩).mul (prod.get ⟨i, h2⟩) := by
    simp [rowProducts, List.get_eq_getElem, List.getElem_zipWith]
  rw [hg]
  rcases h with h | h
  · exact PFloat.mul_isNan_left h
  · exact PFloat.mul_isNan_right h

theorem mapAdd_emissions_of_yearsMatch :
    ∀ xs ys : List IEmissionRealization,
      yearsMatch IEmissionRealization.year xs ys →
      mapAdd IEmissionRealization.add xs ys
        = some (List.zipWith (fun a b => ⟨a.year, a.value.add b.value⟩) xs ys) := by
  intro xs
  induction xs with
  | nil =>
      intro ys h
      cases h
      rfl
  | cons x xs ih =>
      intro ys h
      cases h with
      | cons hxy htail =>
        rename_i y ys'
        simp [mapAdd, IEmissionRealization.add, hxy, ih ys' htail]

theorem mapAdd_ei_of_yearsMatch :
    ∀ xs ys : List IEIRealization,
      yearsMatch IEIRealization.year xs ys →
      mapAdd IEIRealization.add xs ys
        = some (List.zipWith (fun a b => ⟨a.year, a.value.add b.value⟩) xs ys) := by
  intro xs
  induction xs with
  | nil =>
      intro ys h
      cases h
      rfl
  | cons x xs ih =>
      intro ys h
      cases h with
      | cons hxy htail =>
        rename_i y ys'
        simp [mapAdd, IEIRealization.add, hxy, ih ys' htail]

theorem mapAdd_proj_of_yearsMatch :
    ∀ xs ys : List ICompanyEIProjection,
      yearsMatch ICompanyEIProjection.year xs ys →
      mapAdd ICompanyEIProjection.add xs ys
        = some (List.zipWith (fun a b => ⟨a.year, a.value.add b.value⟩) xs ys) := by
  intro xs
  induction xs with
  | nil =>
      intro ys h
      cases h
      rfl
  | cons x xs ih =>
      intro ys h
      cases h with
      | cons hxy htail =>
        rename_i y ys'
        simp [mapAdd, ICompanyEIProjection.add, hxy, ih ys' htail]

theorem mapAdd_none_iff_emissions :
    ∀ xs ys : List IEmissionRealization,
      (mapAdd IEmissionRealization.add xs ys = none
        ↔ ∃ i, ∃ h1 : i < xs.length, ∃ h2 : i < ys.length,
            (xs.get ⟨i, h1⟩).year ≠ (ys.get ⟨i, h2⟩).year) := by
  intro xs
  induction xs with
  | nil =>
      intro ys
      simp [mapAdd]
  | cons x xs ih =>
      intro ys
      cases ys with
      | nil => simp [mapAdd]
      | cons y ys =>
          by_cases hy : x.year = y.year
          · simp only [mapAdd, IEmissionRealization.add, hy, if_pos rfl]
            constructor
            · intro h
              have hnone : mapAdd IEmissionRealization.add xs ys = none := by
                cases hmm : mapAdd IEmissionRealization.add xs ys with
                | none => rfl
                | some rs => rw [hmm] at h; simp at h
              rcases (ih ys).mp hnone with ⟨i, h1, h2, hne⟩
              exact ⟨i + 1, by simpa using Nat.succ_lt_succ h1,
                     by simpa using Nat.succ_lt_succ h2, by simpa using hne⟩
            · rintro ⟨i, h1, h2, hne⟩
              cases i with
              | zero => simp [hy] at hne
              | succ j =>
                  have hnone : mapAdd IEmissionRealization.add xs ys = none := by
                    refine (ih ys).mpr ⟨j, ?_, ?_, ?_⟩
                    · simpa using Nat.lt_of_succ_lt_succ h1
                    · simpa using Nat.lt_of_succ_lt_succ h2
                    · simpa using hne
                  simp [hnone]
          · simp only [mapAdd, IEmissionRealization.add, if_neg hy]
            constructor
            · intro _
              exact ⟨0, by simp, by simp, by simpa using hy⟩
            · intro _
              trivial

/-! ## Claim theorems -/

/-- C1: the trajectory and target temperature scores computed by
DataVaultWarehouse.quant_init equal
scenario_target_temperature + (tcre / carbon_conversion) * global_budget *
(overshoot - 1) with overshoot = cumulative_trajectory / cumulative_budget
(resp. cumulative_target / cumulative_budget), tcre = 2.2 delta_degC and
carbon_conversion = 3664 Gt CO2; equivalently
TemperatureScoreControls.tcre_multiplier = 2.2/3664 delta_degC per Gt CO2. -/
theorem C1_quant_init_temperature_score_formula :
    (∀ ct ctg cb gb bt : ℚ,
      (temperature_scores_row (overshoot_ratios_row ct ctg cb gb bt)).trajectory_temperature_score
        = bt + (22 / 10) / 3664 * gb * (ct / cb - 1)
      ∧ (temperature_scores_row (overshoot_ratios_row ct ctg cb gb bt)).target_temperature_score
        = bt + (22 / 10) / 3664 * gb * (ctg / cb - 1)
      ∧ (temperature_scores_row (overshoot_ratios_row ct ctg cb gb bt)).trajectory_temperature_score_units
        = "delta_degC"
      ∧ (temperature_scores_row (overshoot_ratios_row ct ctg cb gb bt)).target_temperature_score_units
        = "delta_degC")
    ∧ TemperatureScoreControls.tcre_multiplier
        = { m := PFloat.val ((22 / 10) / 3664), u := "delta_degC / (Gt CO2)" } := by
  constructor
  · intro ct ctg cb gb bt
    refine ⟨?_, ?_, rfl, rfl⟩
    · simp only [temperature_scores_row, overshoot_ratios_row]
      ring
    · simp only [temperature_scores_row, overshoot_ratios_row]
      ring
  · simp only [TemperatureScoreControls.tcre_multiplier, Quantity.divide,
      TemperatureScoreControls.tcre, TemperatureScoreControls.carbon_conversion, PFloat.div]
    norm_num
    rfl

/-- C5: with every intensity and production value present, the cumulative
emissions total is the sum over years of intensity times production, as one
Mt CO2 quantity. -/
theorem C5_cumulative_emissions_sum (ei prod : List ℚ) (_h : ei.length = prod.length) :
    get_cumulative_emissions (ei.map PFloat.val) (prod.map PFloat.val)
      = { m := PFloat.val ((List.zipWith (· * ·) ei prod).sum), u := "Mt CO2" } := by
  have hz : rowProducts (ei.map PFloat.val) (prod.map PFloat.val)
      = (List.zipWith (· * ·) ei prod).map PFloat.val := by
    simp [rowProducts, List.zipWith_map, List.map_zipWith, PFloat.mul]
  have hs : ((List.zipWith (· * ·) ei prod).foldl (· + ·) 0)
      = (List.zipWith (· * ·) ei prod).sum := by
    rw [List.sum_eq_foldl]
  simp [get_cumulative_emissions, hz, objectRowSum_all_val, hs]

/-- C5 witness. -/
theorem C5_cumulative_emissions_sum_witness :
    get_cumulative_emissions [PFloat.val 1, PFloat.val 2] [PFloat.val 2, PFloat.val 4]
      = { m := PFloat.val 10, u := "Mt CO2" } := by
  have h := C5_cumulative_emissions_sum [1, 2] [2, 4] (by decide)
  simp only [List.map] at h
  rw [h]
  norm_num

/-- C2: a company/scope whose per-year intensity-times-production terms are all
missing gets a missing (NaN) cumulative total, never zero; and any single year
with missing intensity or missing production contributes a missing term to the
sum rather than being treated as zero. -/
theorem C2_cumulative_emissions_nan_policy (ei prod : List PFloat) :
    ((rowProducts ei prod ≠ []) → (∀ t ∈ rowProducts ei prod, t.isNan) →
      (get_cumulative_emissions ei prod).m = PFloat.nan)
    ∧ (∀ i (h1 : i < ei.length) (h2 : i < prod.length),
        ((ei.get ⟨i, h1⟩).isNan ∨ (prod.get ⟨i, h2⟩).isNan) →
        ((rowProducts ei prod).get ⟨i, by simp [rowProducts]; omega⟩).isNan
        ∧ (get_cumulative_emissions ei prod).m = PFloat.nan) := by
  constructor
  · intro hne hall
    have : ∃ t ∈ rowProducts ei prod, t.isNan := by
      rcases List.exists_mem_of_ne_nil _ hne with ⟨t, ht⟩
      exact ⟨t, ht, hall t ht⟩
    have := objectRowSum_nan_of_mem_nan _ this
    rw [PFloat.isNan_iff] at this
    simpa [get_cumulative_emissions] using this
  · intro i h1 h2 h
    have hterm := rowProducts_nan h1 h2 h
    refine ⟨hterm, ?_⟩
    have hmem : (rowProducts ei prod).get ⟨i, by simp [rowProducts]; omega⟩
        ∈ rowProducts ei prod := List.get_mem _ _ _
    have := objectRowSum_nan_of_mem_nan _ ⟨_, hmem, hterm⟩
    rw [PFloat.isNan_iff] at this
    simpa [get_cumulative_emissions] using this

/-- C2 witness: a two-year series with one missing intensity year and one fully
missing company (all terms NaN) both produce a NaN total. -/
theorem C2_cumulative_emissions_nan_policy_witness :
    (get_cumulative_emissions [PFloat.nan, PFloat.nan] [PFloat.val 1, PFloat.val 2]).m
      = PFloat.nan
    ∧ (get_cumulative_emissions [PFloat.nan, PFloat.val 3] [PFloat.val 1, PFloat.val 2]).m
      = PFloat.nan := by
  constructor
  · exact (C2_cumulative_emissions_nan_policy [PFloat.nan, PFloat.nan]
      [PFloat.val 1, PFloat.val 2]).1 (by decide) (by decide)
  · exact ((C2_cumulative_emissions_nan_policy [PFloat.nan, PFloat.val 3]
      [PFloat.val 1, PFloat.val 2]).2 0 (by decide) (by decide) (Or.inl (by decide))).2

/-- C8: in get_preprocessed_company_data, a missing first projected-target
value is backfilled from the historic S1S2 emissions-intensity value for the
same year when one exists, left missing otherwise; non-missing first-year
values and all later columns are untouched. -/
theorem C8_fix_ragged_projected_targets (year : Int) (x_val : PFloat)
    (hist : List (Int × PFloat)) (rest : List PFloat) :
    (x_val.isNan → ∀ v, dict_lookup year hist = some v →
      fix_ragged_projected_targets year x_val hist = v)
    ∧ (x_val.isNan → dict_lookup year hist = none →
      fix_ragged_projected_targets year x_val hist = x_val)
    ∧ (¬x_val.isNan → fix_ragged_projected_targets year x_val hist = x_val)
    ∧ fix_first_projected_target_column year (x_val :: rest) hist
        = fix_ragged_projected_targets year x_val hist :: rest := by
  refine ⟨?_, ?_, ?_, rfl⟩
  · intro hnan v hv
    simp [fix_ragged_projected_targets, hnan, hv]
  · intro hnan hv
    simp [fix_ragged_projected_targets, hnan, hv]
  · intro hnan
    simp [fix_ragged_projected_targets, hnan]

/-- C8 witness. -/
theorem C8_fix_ragged_projected_targets_witness :
    fix_ragged_projected_targets 2020 PFloat.nan [(2019, PFloat.val 5), (2020, PFloat.val 7)]
      = PFloat.val 7
    ∧ fix_ragged_projected_targets 2021 PFloat.nan [(2019, PFloat.val 5)] = PFloat.nan
    ∧ fix_ragged_projected_targets 2020 (PFloat.val 9) [(2020, PFloat.val 7)] = PFloat.val 9 := by
  refine ⟨?_, ?_, ?_⟩
  · exact (C8_fix_ragged_projected_targets 2020 PFloat.nan
      [(2019, PFloat.val 5), (2020, PFloat.val 7)] []).1 (by decide) _ (by decide)
  · exact (C8_fix_ragged_projected_targets 2021 PFloat.nan
      [(2019, PFloat.val 5)] []).2.1 (by decide) (by decide)
  · exact (C8_fix_ragged_projected_targets 2020 (PFloat.val 9)
      [(2020, PFloat.val 7)] []).2.2.1 (by decide)

/-- C9: with a zero total weighting factor, compute_portfolio_weights does NOT
fail: it silently divides by zero and returns a NaN weighted score (here the
claimed DegenerateAggregationError never happens — the function's type has no
error outcome at all and the evaluation below completes). -/
theorem C9_zero_weight_division :
    compute_portfolio_weights [("A", PFloat.val 3)] [("A", PFloat.val 0)]
      = [("A", PFloat.nan)] := by
  norm_num [compute_portfolio_weights, series_lookup, pandas_sum_skipna,
    PFloat.mul, PFloat.div, PFloat.add, PFloat.isNan,
    List.filter_cons, List.any_cons, List.find?]

/-- C4: for 0 ≤ p ≤ 1, get_pa_temp_scores returns, per requested company found
in the temperature-scores table, p * target + (1 - p) * trajectory, and NaN
for companies not found; for p < 0 or p > 1 it raises ValueError. -/
theorem C4_get_pa_temp_scores (p : ℚ) (table : List (String × TempScoreRow))
    (ids : List String) :
    (0 ≤ p → p ≤ 1 →
      get_pa_temp_scores p table ids = .ok (ids.map (fun cid =>
        match table.find? (fun q => q.1 == cid) with
        | some q =>
            (cid, (q.2.target_temperature_score.mul (PFloat.val p)).add
                    (q.2.trajectory_temperature_score.mul (PFloat.val (1 - p))))
        | none => (cid, PFloat.nan))))
    ∧ (∀ tgt trj : ℚ,
        ((PFloat.val tgt).mul (PFloat.val p)).add ((PFloat.val trj).mul (PFloat.val (1 - p)))
          = PFloat.val (p * tgt + (1 - p) * trj))
    ∧ ((p < 0 ∨ 1 < p) →
        get_pa_temp_scores p table ids = .error "probability value outside range") := by
  refine ⟨?_, ?_, ?_⟩
  · intro h0 h1
    have hcond : ¬(p < 0 ∨ p > 1) := by
      push_neg
      exact ⟨h0, h1⟩
    simp [get_pa_temp_scores, hcond]
  · intro tgt trj
    simp [PFloat.mul, PFloat.add]
    ring
  · intro h
    have hcond : p < 0 ∨ p > 1 := h
    simp [get_pa_temp_scores, hcond]

/-- C4 witness: probability one half blends a found company's two scores and
leaves an unknown company NaN; probability 2 raises. -/
theorem C4_get_pa_temp_scores_witness :
    get_pa_temp_scores (1/2)
        [("A", { target_temperature_score := PFloat.val 2,
                 trajectory_temperature_score := PFloat.val 3 })] ["A", "B"]
      = .ok [("A", PFloat.val (5/2)), ("B", PFloat.nan)]
    ∧ get_pa_temp_scores 2 [] ["A"] = .error "probability value outside range" := by
  constructor
  · have h := (C4_get_pa_temp_scores (1/2)
      [("A", { target_temperature_score := PFloat.val 2,
               trajectory_temperature_score := PFloat.val 3 })] ["A", "B"]).1
      (by norm_num) (by norm_num)
    have hb := (C4_get_pa_temp_scores (1/2)
      [("A", { target_temperature_score := PFloat.val 2,
               trajectory_temperature_score := PFloat.val 3 })] ["A", "B"]).2.1 2 3
    rw [h]
    simp [List.find?, hb]
    norm_num [PFloat.mul, PFloat.add]
  · exact (C4_get_pa_temp_scores 2 [] ["A"]).2.2 (Or.inr (by norm_num))

/-- C6 counterexample: the claim says merging an S1S2 series with an S3 series
whose year sets mismatch fails (raises); but Python's two-argument `map`
truncates to the shorter list, so an S3 series that is a year-prefix of the
S1S2 series merges silently (and even shortens the S1S2 list). -/
theorem C6_mismatched_years_merge_silently :
    (([⟨2019, PFloat.val 1⟩, ⟨2020, PFloat.val 2⟩] : List IEmissionRealization).map
        IEmissionRealization.year
      ≠ ([⟨2019, PFloat.val 3⟩] : List IEmissionRealization).map IEmissionRealization.year)
    ∧ mapAdd IEmissionRealization.add
        [⟨2019, PFloat.val 1⟩, ⟨2020, PFloat.val 2⟩] [⟨2019, PFloat.val 3⟩]
      = some [⟨2019, PFloat.val 4⟩] := by
  constructor
  · decide
  · norm_num [mapAdd, IEmissionRealization.add, PFloat.add]

/-- C6 (amended): pointwise add of two realizations with equal years yields the
summed value (for all three realization flavors); the value addition is
commutative and associative; and the series merge as performed by
`DataWarehouse.__init__` (Python `map`) fails precisely when some ALIGNED
position carries differing years — series of unequal length are truncated to
the shorter one without raising. -/
theorem C6_pointwise_add_properties :
    (∀ a b : IEmissionRealization, a.year = b.year →
      a.add b = some ⟨a.year, a.value.add b.value⟩)
    ∧ (∀ a b : IEIRealization, a.year = b.year →
      a.add b = some ⟨a.year, a.value.add b.value⟩)
    ∧ (∀ a b : ICompanyEIProjection, a.year = b.year →
      a.add b = some ⟨a.year, a.value.add b.value⟩)
    ∧ (∀ x y : PFloat, x.add y = y.add x)
    ∧ (∀ x y z : PFloat, (x.add y).add z = x.add (y.add z))
    ∧ (∀ xs ys : List IEmissionRealization,
        (mapAdd IEmissionRealization.add xs ys = none ↔
          ∃ i, ∃ h1 : i < xs.length, ∃ h2 : i < ys.length,
            (xs.get ⟨i, h1⟩).year ≠ (ys.get ⟨i, h2⟩).year)) := by
  refine ⟨?_, ?_, ?_, PFloat.add_comm_pf, PFloat.add_assoc_pf, mapAdd_none_iff_emissions⟩
  · intro a b hy
    simp [IEmissionRealization.add, hy]
  · intro a b hy
    simp [IEIRealization.add, hy]
  · intro a b hy
    simp [ICompanyEIProjection.add, hy]

/-- C6 witness: equal-year add at a concrete input, and a concrete aligned
year mismatch making the merge fail. -/
theorem C6_pointwise_add_properties_witness :
    IEmissionRealization.add ⟨2019, PFloat.val 1⟩ ⟨2019, PFloat.val 2⟩
      = some ⟨2019, PFloat.val 3⟩
    ∧ mapAdd IEmissionRealization.add
        [(⟨2019, PFloat.val 1⟩ : IEmissionRealization)] [⟨2020, PFloat.val 2⟩] = none := by
  constructor
  · have h := C6_pointwise_add_properties.1 ⟨2019, PFloat.val 1⟩ ⟨2019, PFloat.val 2⟩ rfl
    rw [h]
    norm_num [PFloat.add]
  · exact (C6_pointwise_add_properties.2.2.2.2.2
      [⟨2019, PFloat.val 1⟩] [⟨2020, PFloat.val 2⟩]).mpr
      ⟨0, by decide, by decide, by decide⟩

theorem mem_year_span (b e y : Int) : y ∈ year_span b e ↔ b ≤ y ∧ y ≤ e := by
  unfold year_span
  constructor
  · intro hy
    rcases List.mem_map.mp hy with ⟨i, hi, rfl⟩
    rw [List.mem_range] at hi
    omega
  · rintro ⟨hby, hye⟩
    refine List.mem_map.mpr ⟨(y - b).toNat, ?_, ?_⟩
    · rw [List.mem_range]
      omega
    · omega

/-- C10: a company whose region is absent from the benchmark's regions is
looked up under ("Global", sector); one whose region is present is looked up
under its own region; the selected row is restricted to the years base_year
through target_end_year inclusive.  Both the production and the intensity
lookup behave this way. -/
theorem C10_benchmark_global_fallback (bench : List IBenchmark) (b e : Int)
    (companies : List (String × String)) (i : ℕ) (hi : i < companies.length) :
    (((benchmark_regions bench).contains (companies.get ⟨i, hi⟩).1 = false →
      (get_benchmark_projections bench b e companies).get
          ⟨i, by simp [get_benchmark_projections]; omega⟩
        = (benchmark_find bench "Global" (companies.get ⟨i, hi⟩).2).map
            (fun r => benchmark_series r b e)
      ∧ (get_intensity_benchmarks bench b e companies).get
          ⟨i, by simp [get_intensity_benchmarks]; omega⟩
        = (benchmark_find bench "Global" (companies.get ⟨i, hi⟩).2).map
            (fun r => benchmark_series r b e))
    ∧ ((benchmark_regions bench).contains (companies.get ⟨i, hi⟩).1 = true →
      (get_benchmark_projections bench b e companies).get
          ⟨i, by simp [get_benchmark_projections]; omega⟩
        = (benchmark_find bench (companies.get ⟨i, hi⟩).1 (companies.get ⟨i, hi⟩).2).map
            (fun r => benchmark_series r b e)
      ∧ (get_intensity_benchmarks bench b e companies).get
          ⟨i, by simp [get_intensity_benchmarks]; omega⟩
        = (benchmark_find bench (companies.get ⟨i, hi⟩).1 (companies.get ⟨i, hi⟩).2).map
            (fun r => benchmark_series r b e)))
    ∧ (∀ y : Int, y ∈ year_span b e ↔ b ≤ y ∧ y ≤ e) := by
  constructor
  · constructor
    · intro hmask
      have hnm : ¬companies[i].1 ∈ benchmark_regions bench := by
        simpa [List.get_eq_getElem] using hmask
      constructor
      · simp [get_benchmark_projections, List.get_eq_getElem, List.getElem_map, hnm]
      · simp [get_intensity_benchmarks, List.get_eq_getElem, List.getElem_map, hnm]
    · intro hmask
      have hnm : companies[i].1 ∈ benchmark_regions bench := by
        simpa [List.get_eq_getElem] using hmask
      constructor
      · simp [get_benchmark_projections, List.get_eq_getElem, List.getElem_map, hnm]
      · simp [get_intensity_benchmarks, List.get_eq_getElem, List.getElem_map, hnm]
  · intro y
    exact mem_year_span b e y

/-- C10 witness: a company in region "Asia" (absent from a benchmark holding
only "Global" rows) resolves to the ("Global", "Steel") series over 2019-2021. -/
theorem C10_benchmark_global_fallback_witness :
    (get_benchmark_projections
        [{ region := "Global", sector := "Steel",
           projections := [(2019, 1), (2020, 2), (2021, 3)] }] 2019 2021
        [("Asia", "Steel")]).get ⟨0, by decide⟩
      = some [some 1, some 2, some 3] := by
  have h := ((C10_benchmark_global_fallback
      [{ region := "Global", sector := "Steel",
         projections := [(2019, 1), (2020, 2), (2021, 3)] }] 2019 2021
      [("Asia", "Steel")] 0 (by decide)).1.1 (by decide)).1
  exact h.trans (by decide)

/-- C3: during DataWarehouse construction, scope consolidation happens only
after target projections are computed (the construction IS
consolidate ∘ calculate_target_projections); afterwards a company with S3 data
has ghg_s1s2 = prior ghg_s1s2 + ghg_s3 with ghg_s3 reset to a zero quantity,
historic S1S2 emission and intensity series equal to the pointwise
year-matched sums with the S3 lists emptied, and projected_intensities.S1S2 /
projected_targets.S1S2 equal to the pointwise sums with S3 set to None —
everything relative to the post-projection state. -/
theorem C3_consolidation_after_projection
    (calculate_target_projections : ICompanyData → ICompanyData) (c : ICompanyData)
    (g : Quantity) (h : IHistoricData) (e : IHistoricEmissionsScopes) (f : IHistoricEIScopes)
    (pi12 pi3 pt12 pt3 : ICompanyEIProjections)
    (hg : (calculate_target_projections c).ghg_s3 = some g)
    (hgt : g.m.truthy = true) (hgn : g.m.isNan = false)
    (hh : (calculate_target_projections c).historic_data = some h)
    (he : h.emissions = some e) (he3 : e.S3 ≠ [])
    (hem : yearsMatch IEmissionRealization.year e.S1S2 e.S3)
    (hf : h.emissions_intensities = some f) (hf3 : f.S3 ≠ [])
    (hfm : yearsMatch IEIRealization.year f.S1S2 f.S3)
    (hpi3 : (calculate_target_projections c).projected_intensities.S3 = some pi3)
    (hpi12 : (calculate_target_projections c).projected_intensities.S1S2 = some pi12)
    (hpim : yearsMatch ICompanyEIProjection.year pi12.projections pi3.projections)
    (hpt3 : (calculate_target_projections c).projected_targets.S3 = some pt3)
    (hpt12 : (calculate_target_projections c).projected_targets.S1S2 = some pt12)
    (hptm : yearsMatch ICompanyEIProjection.year pt12.projections pt3.projections) :
    DataWarehouse.init_consolidate calculate_target_projections c = some
      { calculate_target_projections c with
          ghg_s1s2 := (calculate_target_projections c).ghg_s1s2.add g,
          ghg_s3 := some { m := PFloat.val 0, u := g.u },
          historic_data := some { h with
            emissions := some { e with
              S1S2 := List.zipWith (fun a b => ⟨a.year, a.value.add b.value⟩) e.S1S2 e.S3,
              S3 := [] },
            emissions_intensities := some { f with
              S1S2 := List.zipWith (fun a b => ⟨a.year, a.value.add b.value⟩) f.S1S2 f.S3,
              S3 := [] } },
          projected_intensities :=
            { (calculate_target_projections c).projected_intensities with
                S1S2 := some { pi12 with projections :=
                  (List.zipWith (fun a b => ⟨a.year, a.value.add b.value⟩)
                    pi12.projections pi3.projections) },
                S3 := none },
          projected_targets :=
            { (calculate_target_projections c).projected_targets with
                S1S2 := some { pt12 with projections :=
                  (List.zipWith (fun a b => ⟨a.year, a.value.add b.value⟩)
                    pt12.projections pt3.projections) },
                S3 := none } } := by
  have hem' := mapAdd_emissions_of_yearsMatch _ _ hem
  have hfm' := mapAdd_ei_of_yearsMatch _ _ hfm
  have hpim' := mapAdd_proj_of_yearsMatch _ _ hpim
  have hptm' := mapAdd_proj_of_yearsMatch _ _ hptm
  simp only [DataWarehouse.init_consolidate, consolidate_company, hg, hgt, hgn,
    Bool.not_false, Bool.and_self, if_true, hh, he, hf, he3, hf3, if_neg,
    hpi3, hpi12, hpt3, hpt12, hem', hfm', hpim', hptm', Option.bind_eq_bind,
    Option.some_bind]
  simp [he3, hf3, hem', hfm', hh, he, hf, hpi3, hpi12, hpt3, hpt12, hpim', hptm']

/-- C3 witness: consolidating a concrete company with S3 data in every slot. -/
theorem C3_consolidation_after_projection_witness :
    DataWarehouse.init_consolidate id c3wCompany = some
      { company_id := "X",
        ghg_s1s2 := { m := PFloat.val 15, u := "t CO2" },
        ghg_s3 := some { m := PFloat.val 0, u := "t CO2" },
        historic_data := some
          { productions := [],
            emissions := some
              { S1 := [], S2 := [], S1S2 := [⟨2019, PFloat.val 3⟩],
                S3 := [], S1S2S3 := [] },
            emissions_intensities := some
              { S1 := [], S2 := [], S1S2 := [⟨2019, PFloat.val 7⟩],
                S3 := [], S1S2S3 := [] } },
        projected_intensities :=
          { S1 := none, S2 := none,
            S1S2 := some { ei_metric := "t CO2/GJ", projections := [⟨2019, PFloat.val 13⟩] },
            S3 := none, S1S2S3 := none },
        projected_targets :=
          { S1 := none, S2 := none,
            S1S2 := some { ei_metric := "t CO2/GJ", projections := [⟨2019, PFloat.val 17⟩] },
            S3 := none, S1S2S3 := none } } := by
  have h := C3_consolidation_after_projection id c3wCompany
    { m := PFloat.val 5, u := "t CO2" }
    { productions := [],
      emissions := some
        { S1 := [], S2 := [], S1S2 := [⟨2019, PFloat.val 1⟩],
          S3 := [⟨2019, PFloat.val 2⟩], S1S2S3 := [] },
      emissions_intensities := some
        { S1 := [], S2 := [], S1S2 := [⟨2019, PFloat.val 3⟩],
          S3 := [⟨2019, PFloat.val 4⟩], S1S2S3 := [] } }
    { S1 := [], S2 := [], S1S2 := [⟨2019, PFloat.val 1⟩],
      S3 := [⟨2019, PFloat.val 2⟩], S1S2S3 := [] }
    { S1 := [], S2 := [], S1S2 := [⟨2019, PFloat.val 3⟩],
      S3 := [⟨2019, PFloat.val 4⟩], S1S2S3 := [] }
    { ei_metric := "t CO2/GJ", projections := [⟨2019, PFloat.val 6⟩] }
    { ei_metric := "t CO2/GJ", projections := [⟨2019, PFloat.val 7⟩] }
    { ei_metric := "t CO2/GJ", projections := [⟨2019, PFloat.val 8⟩] }
    { ei_metric := "t CO2/GJ", projections := [⟨2019, PFloat.val 9⟩] }
    rfl (by decide) (by decide) rfl rfl (by decide)
    (List.Forall₂.cons rfl List.Forall₂.nil)
    rfl (by decide) (List.Forall₂.cons rfl List.Forall₂.nil)
    rfl rfl (List.Forall₂.cons rfl List.Forall₂.nil)
    rfl rfl (List.Forall₂.cons rfl List.Forall₂.nil)
  refine h.trans ?_
  norm_num [c3wCompany, Quantity.add, PFloat.add]

theorem maxByYearFirst_mem (v0 : Int × PFloat) (vs : List (Int × PFloat)) :
    maxByYearFirst v0 vs ∈ v0 :: vs := by
  induction vs generalizing v0 with
  | nil => simp [maxByYearFirst]
  | cons x xs ih =>
      by_cases hc : v0.1 < x.1
      · have hdef : maxByYearFirst v0 (x :: xs) = maxByYearFirst x xs := by
          simp [maxByYearFirst, hc]
        rw [hdef]
        rcases List.mem_cons.mp (ih x) with heq | hmem
        · rw [heq]
          exact List.mem_cons_of_mem _ (List.mem_cons_self _ _)
        · exact List.mem_cons_of_mem _ (List.mem_cons_of_mem _ hmem)
      · have hdef : maxByYearFirst v0 (x :: xs) = maxByYearFirst v0 xs := by
          simp [maxByYearFirst, hc]
        rw [hdef]
        rcases List.mem_cons.mp (ih v0) with heq | hmem
        · rw [heq]
          exact List.mem_cons_self _ _
        · exact List.mem_cons_of_mem _ (List.mem_cons_of_mem _ hmem)

theorem maxByYearFirst_ge (v0 : Int × PFloat) (vs : List (Int × PFloat)) :
    v0.1 ≤ (maxByYearFirst v0 vs).1 ∧ ∀ q ∈ vs, q.1 ≤ (maxByYearFirst v0 vs).1 := by
  induction vs generalizing v0 with
  | nil => exact ⟨le_refl _, by simp⟩
  | cons x xs ih =>
      by_cases hc : v0.1 < x.1
      · have hdef : maxByYearFirst v0 (x :: xs) = maxByYearFirst x xs := by
          simp [maxByYearFirst, hc]
        rcases ih x with ⟨h1, h2⟩
        rw [hdef]
        refine ⟨le_trans (le_of_lt hc) h1, ?_⟩
        intro q hq
        rcases List.mem_cons.mp hq with rfl | hm
        · exact h1
        · exact h2 q hm
      · have hdef : maxByYearFirst v0 (x :: xs) = maxByYearFirst v0 xs := by
          simp [maxByYearFirst, hc]
        rcases ih v0 with ⟨h1, h2⟩
        rw [hdef]
        refine ⟨h1, ?_⟩
        intro q hq
        rcases List.mem_cons.mp hq with rfl | hm
        · exact le_trans (le_of_not_lt hc) h1
        · exact h2 q hm

theorem get_base_most_recent (l : List (Int × PFloat))
    (hv : l.filter (fun rv => !rv.2.isNan) ≠ []) :
    ∃ p, p ∈ l ∧ p.2.isNan = false
      ∧ get_base_realization_from_historic l none = { year := some p.1, value := p.2 }
      ∧ ∀ q ∈ l, q.2.isNan = false → q.1 ≤ p.1 := by
  cases hval : l.filter (fun rv => !rv.2.isNan) with
  | nil => exact absurd hval hv
  | cons v0 vs =>
      have hmem := maxByYearFirst_mem v0 vs
      rw [← hval] at hmem
      refine ⟨maxByYearFirst v0 vs, (List.mem_filter.mp hmem).1, ?_, ?_, ?_⟩
      · have := (List.mem_filter.mp hmem).2
        simpa using this
      · simp [get_base_realization_from_historic, hval]
      · intro q hq hqn
        have hqf : q ∈ l.filter (fun rv => !rv.2.isNan) :=
          List.mem_filter.mpr ⟨hq, by simp [hqn]⟩
        rw [hval] at hqf
        rcases List.mem_cons.mp hqf with rfl | hm
        · exact (maxByYearFirst_ge q vs).1
        · exact (maxByYearFirst_ge v0 vs).2 q hm

theorem get_base_base_year_mismatch (l : List (Int × PFloat)) (b : Int)
    (hv : l.filter (fun rv => !rv.2.isNan) ≠ [])
    (hb : (get_base_realization_from_historic l none).year ≠ some b) :
    get_base_realization_from_historic l (some b)
      = { year := some b, value := PFloat.nan } := by
  cases hval : l.filter (fun rv => !rv.2.isNan) with
  | nil => exact absurd hval hv
  | cons v0 vs =>
      have hnone : get_base_realization_from_historic l none
          = { year := some (maxByYearFirst v0 vs).1, value := (maxByYearFirst v0 vs).2 } := by
        simp [get_base_realization_from_historic, hval]
      rw [hnone] at hb
      have hne : (maxByYearFirst v0 vs).1 ≠ b := by
        intro heq
        exact hb (by rw [heq])
      simp [get_base_realization_from_historic, hval, hne]

theorem get_base_all_missing (v0 : Int × PFloat) (rest : List (Int × PFloat))
    (hall : ∀ q ∈ v0 :: rest, q.2.isNan) (by0 : Option Int) :
    get_base_realization_from_historic (v0 :: rest) by0
      = { year := none, value := v0.2 } := by
  have hval : (v0 :: rest).filter (fun rv => !rv.2.isNan) = [] := by
    rw [List.filter_eq_nil_iff]
    intro a ha
    simp [hall a ha]
  simp [get_base_realization_from_historic, hval]

/-- C7 counterexample: ghg_s1s2 is not supplied, the historic S1S2
absolute-emissions series exists but holds only a missing value, and the
historic S1S2 intensity series holds a perfectly good value (3, with base-year
production 2).  The claim demands the intensity fallback (3 × 2 = 6) or,
failing every source, a raise; the code instead returns a NaN ghg_s1s2
without falling back and without raising. -/
theorem C7_all_nan_emissions_no_fallback :
    derive_ghg_s1s2 (some (PFloat.val 2)) none
      (some { productions := [],
              emissions := some
                { S1 := [], S2 := [], S1S2 := [⟨2019, PFloat.nan⟩], S3 := [], S1S2S3 := [] },
              emissions_intensities := some
                { S1 := [], S2 := [], S1S2 := [⟨2019, PFloat.val 3⟩], S3 := [], S1S2S3 := [] } })
      = .ok { base_year_production := PFloat.val 2, base_year := none,
              ghg_s1s2 := PFloat.nan } := by
  rfl

/-- C7 (amended): when ghg_s1s2 is not supplied it is derived from historic
data, preferring the absolute S1S2 emissions series, else S1 plus S2; the
intensity fallback (intensity times base-year production) runs only when no
absolute-emissions branch applies — a series that exists but is entirely
missing yields a NaN ghg_s1s2 without fallback and without raising.  Within a
series, with no base year fixed, the most recent non-missing year wins; a base
year fixed earlier (from production history) that disagrees with it forces a
NaN value instead.  Construction raises ValueError only when no branch sets
any value; in the batch loop a pydantic ValidationError drops the company and
continues while a ValueError aborts the batch. -/
theorem C7_ghg_s1s2_derivation_amended :
    (∀ (bp : Option PFloat) (h : IHistoricData) (e : IHistoricEmissionsScopes),
      h.emissions = some e → e.S1S2 ≠ [] →
      derive_ghg_s1s2 bp none (some h) = .ok
        { base_year_production := (derive_base_year_production bp (some h)).1,
          base_year := ((derive_base_year_production bp (some h)).2
            <|> (get_base_realization_from_historic (emPairs e.S1S2)
                  (derive_base_year_production bp (some h)).2).year),
          ghg_s1s2 := (get_base_realization_from_historic (emPairs e.S1S2)
                  (derive_base_year_production bp (some h)).2).value })
    ∧ (∀ (bp : Option PFloat) (h : IHistoricData) (e : IHistoricEmissionsScopes),
      h.emissions = some e → e.S1S2 = [] → e.S1 ≠ [] → e.S2 ≠ [] →
      derive_ghg_s1s2 bp none (some h) = .ok
        { base_year_production := (derive_base_year_production bp (some h)).1,
          base_year := ((derive_base_year_production bp (some h)).2
            <|> (get_base_realization_from_historic (emPairs e.S1)
                  (derive_base_year_production bp (some h)).2).year),
          ghg_s1s2 := ((get_base_realization_from_historic (emPairs e.S1)
                  (derive_base_year_production bp (some h)).2).value.add
                (get_base_realization_from_historic (emPairs e.S2)
                  (derive_base_year_production bp (some h)).2).value) })
    ∧ (∀ (bp : Option PFloat) (h : IHistoricData) (f : IHistoricEIScopes),
      h.emissions = none → h.emissions_intensities = some f → f.S1S2 ≠ [] →
      derive_ghg_s1s2 bp none (some h) = .ok
        { base_year_production := (derive_base_year_production bp (some h)).1,
          base_year := ((derive_base_year_production bp (some h)).2
            <|> (get_base_realization_from_historic (eiPairs f.S1S2)
                  (derive_base_year_production bp (some h)).2).year),
          ghg_s1s2 := ((get_base_realization_from_historic (eiPairs f.S1S2)
                  (derive_base_year_production bp (some h)).2).value.mul
                (derive_base_year_production bp (some h)).1) })
    ∧ (∀ bp : Option PFloat,
      derive_ghg_s1s2 bp none none
        = .error "missing historic emissions or intensity data to calculate ghg_s1s2")
    ∧ (∀ (bp : Option PFloat) (h : IHistoricData),
      h.emissions = none → h.emissions_intensities = none →
      derive_ghg_s1s2 bp none (some h)
        = .error "missing historic emissions or intensity data to calculate ghg_s1s2")
    ∧ (∀ (bp : Option PFloat) (h : IHistoricData) (e : IHistoricEmissionsScopes),
      h.emissions = some e → e.S1S2 ≠ [] → (∀ r ∈ e.S1S2, r.value.isNan) →
      ∃ g, derive_ghg_s1s2 bp none (some h) = .ok g ∧ g.ghg_s1s2.isNan)
    ∧ (∀ l : List (Int × PFloat), l.filter (fun rv => !rv.2.isNan) ≠ [] →
      ∃ p, p ∈ l ∧ p.2.isNan = false
        ∧ get_base_realization_from_historic l none = { year := some p.1, value := p.2 }
        ∧ ∀ q ∈ l, q.2.isNan = false → q.1 ≤ p.1)
    ∧ (∀ (l : List (Int × PFloat)) (b : Int), l.filter (fun rv => !rv.2.isNan) ≠ [] →
      (get_base_realization_from_historic l none).year ≠ some b →
      get_base_realization_from_historic l (some b)
        = { year := some b, value := PFloat.nan })
    ∧ (∀ rest, company_df_to_model (.validation_error :: rest) = company_df_to_model rest)
    ∧ (∀ (msg : String) rest, company_df_to_model (.value_error msg :: rest) = .error msg) := by
  refine ⟨?_, ?_, ?_, ?_, ?_, ?_, get_base_most_recent, get_base_base_year_mismatch,
    fun rest => rfl, fun msg rest => rfl⟩
  · intro bp h e he he12
    simp [derive_ghg_s1s2, he, he12]
  · intro bp h e he he12 he1 he2
    simp [derive_ghg_s1s2, he, he12, he1, he2]
  · intro bp h f he hf hf12
    simp [derive_ghg_s1s2, he, hf, hf12]
  · intro bp
    simp [derive_ghg_s1s2]
  · intro bp h he hf
    simp [derive_ghg_s1s2, he, hf]
  · intro bp h e he he12 hall
    cases hs : e.S1S2 with
    | nil => exact absurd hs he12
    | cons r0 rrest =>
        refine ⟨
          { base_year_production := (derive_base_year_production bp (some h)).1,
            base_year := ((derive_base_year_production bp (some h)).2
              <|> (get_base_realization_from_historic (emPairs e.S1S2)
                    (derive_base_year_production bp (some h)).2).year),
            ghg_s1s2 := (get_base_realization_from_historic (emPairs e.S1S2)
                    (derive_base_year_production bp (some h)).2).value }, ?_, ?_⟩
        · simp [derive_ghg_s1s2, he, he12]
        · have hbase : get_base_realization_from_historic (emPairs e.S1S2)
              (derive_base_year_production bp (some h)).2
              = { year := none, value := r0.value } := by
            rw [hs]
            exact get_base_all_missing (r0.year, r0.value) (emPairs rrest)
              (by
                intro q hq
                rcases List.mem_cons.mp hq with rfl | hm
                · exact hall r0 (by rw [hs]; exact List.mem_cons_self _ _)
                · rcases List.mem_map.mp hm with ⟨r, hr, rfl⟩
                  exact hall r (by rw [hs]; exact List.mem_cons_of_mem _ hr)) _
          simp [hbase]
          exact hall r0 (by rw [hs]; exact List.mem_cons_self _ _)

/-- C7 witness: a supplied base-year production, a single-year S1S2 emissions
history, and a batch whose first row raises ValueError. -/
theorem C7_ghg_s1s2_derivation_amended_witness :
    derive_ghg_s1s2 (some (PFloat.val 2)) none
      (some { productions := [],
              emissions := some
                { S1 := [], S2 := [], S1S2 := [⟨2019, PFloat.val 7⟩],
                  S3 := [], S1S2S3 := [] },
              emissions_intensities := none })
      = .ok { base_year_production := PFloat.val 2, base_year := some 2019,
              ghg_s1s2 := PFloat.val 7 }
    ∧ company_df_to_model [.value_error "missing data", .validation_error]
      = .error "missing data" := by
  constructor
  · have h := C7_ghg_s1s2_derivation_amended.1 (some (PFloat.val 2))
      { productions := [],
        emissions := some
          { S1 := [], S2 := [], S1S2 := [⟨2019, PFloat.val 7⟩],
            S3 := [], S1S2S3 := [] },
        emissions_intensities := none }
      { S1 := [], S2 := [], S1S2 := [⟨2019, PFloat.val 7⟩],
        S3 := [], S1S2S3 := [] }
      rfl (by decide)
    exact h.trans (by rfl)
  · exact C7_ghg_s1s2_derivation_amended.2.2.2.2.2.2.2.2.2 "missing data" [.validation_error]
